import Mathlib

/-!
Verification of the biquad-filters repository: a shallow embedding of the
digital biquad filter core (DigitalBiquadFilter.h, in both the
biquad-filters-cpp variant and the legacy src/inc variant) and of the
FilterObject parameter wrapper with its per-kind coefficient derivations.
Floating-point arithmetic is modelled by exact field arithmetic: the pure
control-flow and arithmetic structure of the code is embedded over an
arbitrary linear ordered field, instantiated at ℚ for executable claims and
at ℝ for the claims involving transcendental functions.
-/

namespace Biquad

/-- Coefficients of a digital biquad filter, mirroring struct Coefficients:
b0, b1, b2, a0, a1, a2. -/
structure Coefficients (α : Type) where
  b0 : α
  b1 : α
  b2 : α
  a0 : α
  a1 : α
  a2 : α
deriving DecidableEq

/-- State of a digital biquad filter, mirroring struct State: the two most
recent inputs x1, x2 and the two most recent outputs y1, y2. -/
structure State (α : Type) where
  x1 : α
  x2 : α
  y1 : α
  y2 : α
deriving DecidableEq

/-- A digital biquad filter: coefficients, state and the iteration counter
m_iter, mirroring class DigitalBiquadFilter. -/
structure DigitalBiquadFilter (α : Type) where
  coeffs : Coefficients α
  state : State α
  iter : ℤ
deriving DecidableEq

variable {α : Type}

/-- The all-zero state, mirroring zero initialization of struct State. -/
def zeroState [Field α] : State α := { x1 := 0, x2 := 0, y1 := 0, y2 := 0 }

/-- Embedding of DigitalBiquadFilter::normalize_coefficients from the
biquad-filters-cpp variant: each of b0, b1, b2, a1, a2 is divided by a0 in
turn (a0 itself is only overwritten with 1 at the end, so every division is
by the original a0). -/
def normalize_coefficients [Field α] (c0 : Coefficients α) : Coefficients α :=
  let c := { c0 with b0 := c0.b0 / c0.a0 }
  let c := { c with b1 := c.b1 / c.a0 }
  let c := { c with b2 := c.b2 / c.a0 }
  let c := { c with a1 := c.a1 / c.a0 }
  let c := { c with a2 := c.a2 / c.a0 }
  { c with a0 := 1 }

/-- Embedding of DigitalBiquadFilter::create (biquad-filters-cpp variant):
fails when a0 == 0, otherwise constructs the filter through the private
constructor, which normalizes the coefficients; members m_state and m_iter
are zero-initialized. -/
def DigitalBiquadFilter.create [Field α] [DecidableEq α]
    (coefficients : Coefficients α) : Option (DigitalBiquadFilter α) :=
  if coefficients.a0 = 0 then none
  else some { coeffs := normalize_coefficients coefficients,
              state := zeroState, iter := 0 }

/-- Embedding of DigitalBiquadFilter::process(T&) (biquad-filters-cpp
variant): the direct-form-I recurrence on the stored (already normalized)
coefficients; returns the output sample and the updated filter. -/
def DigitalBiquadFilter.process [Field α] (f : DigitalBiquadFilter α)
    (sample : α) : α × DigitalBiquadFilter α :=
  let x0 := sample
  let x1 := f.state.x1
  let x2 := f.state.x2
  let y1 := f.state.y1
  let y2 := f.state.y2
  let output := (f.coeffs.b0 * x0) + (f.coeffs.b1 * x1) +
    (f.coeffs.b2 * x2) - (f.coeffs.a1 * y1) - (f.coeffs.a2 * y2)
  let newState : State α := { x1 := x0, x2 := x1, y1 := output, y2 := y1 }
  (output, { f with state := newState, iter := f.iter + 1 })

/-- Embedding of DigitalBiquadFilter::process_block_scalar: the sequential
loop calling process on each sample in order. -/
def DigitalBiquadFilter.processBlockScalar [Field α]
    (f : DigitalBiquadFilter α) : List α → List α × DigitalBiquadFilter α
  | [] => ([], f)
  | s :: rest =>
    let r := f.process s
    let rs := r.2.processBlockScalar rest
    (r.1 :: rs.1, rs.2)

/-- Modelled from the spec's reference semantics for block processing:
applying the single-sample process call count times in sequence, state
carrying across samples. This is the behaviour the spec demands of every
block-processing code path. -/
def DigitalBiquadFilter.processSeq [Field α]
    (f : DigitalBiquadFilter α) : List α → List α × DigitalBiquadFilter α
  | [] => ([], f)
  | x :: xs =>
    let p := f.process x
    let ps := p.2.processSeq xs
    (p.1 :: ps.1, ps.2)

/-- A four-lane vector value, mirroring one __m256d register. -/
def Vec4 (α : Type) : Type := α × α × α × α

/-- Broadcast of a scalar into all four lanes, mirroring _mm256_set1_pd. -/
def splat4 (x : α) : Vec4 α := (x, x, x, x)

/-- Lane 0 of a four-lane vector, mirroring _mm256_cvtsd_f64. -/
def lane0 (v : Vec4 α) : α := v.1

/-- One lane of the vectorized recurrence body of process_block_avx:
(b0*x0 + b1*x1) + b2*x2 minus (a1*y1 + a2*y2), with the intrinsics'
association. -/
def avxLane [Field α] (c : Coefficients α) (x0 x1 x2 y1 y2 : α) : α :=
  ((c.b0 * x0) + (c.b1 * x1)) + (c.b2 * x2) - ((c.a1 * y1) + (c.a2 * y2))

/-- Lanewise application of the vectorized recurrence body to four-lane
registers. -/
def avxVec [Field α] (c : Coefficients α) (x0 x1 x2 y1 y2 : Vec4 α) :
    Vec4 α :=
  (avxLane c x0.1 x1.1 x2.1 y1.1 y2.1,
   avxLane c x0.2.1 x1.2.1 x2.2.1 y1.2.1 y2.2.1,
   avxLane c x0.2.2.1 x1.2.2.1 x2.2.2.1 y1.2.2.1 y2.2.2.1,
   avxLane c x0.2.2.2 x1.2.2.2 x2.2.2.2 y1.2.2.2 y2.2.2.2)

/-- Embedding of the main loop of process_block_avx (double lane width 4):
while at least four samples remain, a whole vector of four consecutive
samples is processed against the same four register states, then the
register states shift once per vector; any tail of fewer than four samples
is left untouched by the loop. Returns the written samples and the final
register states. -/
def avxLoop [Field α] (c : Coefficients α) (x1 x2 y1 y2 : Vec4 α) :
    List α → List α × Vec4 α × Vec4 α × Vec4 α × Vec4 α
  | s0 :: s1 :: s2 :: s3 :: rest =>
    let x0 : Vec4 α := (s0, s1, s2, s3)
    let y0 := avxVec c x0 x1 x2 y1 y2
    let r := avxLoop c x0 x1 y0 y1 rest
    (y0.1 :: y0.2.1 :: y0.2.2.1 :: y0.2.2.2 :: r.1, r.2)
  | rest => (rest, x1, x2, y1, y2)

/-- Embedding of DigitalBiquadFilter::process_block_avx for T = double
(lane width 4): blocks shorter than 4 fall back to the scalar loop;
otherwise the registers are initialized by broadcasting the scalar state,
the vector loop runs, and lane 0 of each register is written back as the
final scalar state. The iteration counter is not advanced on this path. -/
def DigitalBiquadFilter.process_block_avx [Field α]
    (f : DigitalBiquadFilter α) (samples : List α) :
    List α × DigitalBiquadFilter α :=
  if samples.length < 4 then f.processBlockScalar samples
  else
    let r := avxLoop f.coeffs (splat4 f.state.x1) (splat4 f.state.x2)
      (splat4 f.state.y1) (splat4 f.state.y2) samples
    let finalState : State α :=
      { x1 := lane0 r.2.1, x2 := lane0 r.2.2.1,
        y1 := lane0 r.2.2.2.1, y2 := lane0 r.2.2.2.2 }
    (r.1, { f with state := finalState })

/-- Embedding of DigitalBiquadFilter::reset: zeroes the four state values
and the iteration counter; coefficients untouched. -/
def DigitalBiquadFilter.reset [Field α] (f : DigitalBiquadFilter α) :
    DigitalBiquadFilter α :=
  { f with state := zeroState, iter := 0 }

/-- Embedding of DigitalBiquadFilter::set_coefficients (biquad-filters-cpp
variant): fails when a0 == 0 leaving the filter unchanged; otherwise stores
the coefficients, normalizes them, and resets state and counter. -/
def DigitalBiquadFilter.set_coefficients [Field α] [DecidableEq α]
    (f : DigitalBiquadFilter α) (coefficients : Coefficients α) :
    Bool × DigitalBiquadFilter α :=
  if coefficients.a0 = 0 then (false, f)
  else (true, { coeffs := normalize_coefficients coefficients,
                state := zeroState, iter := 0 })

/-- Embedding of the legacy src/inc DigitalBiquadFilter::create: fails when
a0 == 0, otherwise stores the raw coefficients without normalizing; state
and counter are zero-initialized. -/
def DigitalBiquadFilter.createLegacy [Field α] [DecidableEq α]
    (coefficients : Coefficients α) : Option (DigitalBiquadFilter α) :=
  if coefficients.a0 = 0 then none
  else some { coeffs := coefficients, state := zeroState, iter := 0 }

/-- Embedding of the legacy src/inc DigitalBiquadFilter::process(T&): the
same recurrence, but each stored coefficient is divided by the stored a0 at
every call. -/
def DigitalBiquadFilter.processLegacy [Field α] (f : DigitalBiquadFilter α)
    (sample : α) : α × DigitalBiquadFilter α :=
  let output := ((f.coeffs.b0 / f.coeffs.a0) * sample) +
    ((f.coeffs.b1 / f.coeffs.a0) * f.state.x1) +
    ((f.coeffs.b2 / f.coeffs.a0) * f.state.x2) -
    ((f.coeffs.a1 / f.coeffs.a0) * f.state.y1) -
    ((f.coeffs.a2 / f.coeffs.a0) * f.state.y2)
  let newState : State α :=
    { x1 := sample, x2 := f.state.x1, y1 := output, y2 := f.state.y1 }
  (output, { f with state := newState, iter := f.iter + 1 })

/-- Design parameters held by a FilterObject: cutoff frequency, sample rate
(an int in the source), quality factor, gain, and the constant-skirt-gain
flag. -/
structure FilterParams (α : Type) where
  cutoff : α
  sampleRate : ℤ
  qFactor : α
  gain : α
  constantSkirtGain : Bool
deriving DecidableEq

/-- Embedding of the abstract class FilterObject (src/cpp/inc variant, the
one with the bypass flag): the virtual method calculate_coefficients is
modelled as a function field from the design parameters to coefficients,
fixed per concrete filter kind. -/
structure FilterObject (α : Type) where
  calcCoefficients : FilterParams α → Coefficients α
  filter : Option (DigitalBiquadFilter α)
  params : FilterParams α
  bypass : Bool

section FilterObjectOps

variable [LinearOrderedField α] [DecidableEq α]

/-- Embedding of FilterObject::process(T&): no-op returning false when
bypassed or when the owned core is absent; otherwise delegates to the core
and returns true. -/
def FilterObject.process (fo : FilterObject α) (sample : α) :
    Bool × α × FilterObject α :=
  if fo.bypass then (false, sample, fo)
  else
    match fo.filter with
    | some f =>
      let r := f.process sample
      (true, r.1, { fo with filter := some r.2 })
    | none => (false, sample, fo)

/-- Embedding of FilterObject::process(T*, size_t) composed with the core's
dispatching block process: with bypass set or no core it returns false
without touching anything; otherwise it calls the core block process (whose
own false result on an empty block is discarded by the wrapper, which
returns true whenever a core is present) along the scalar path, the
semantically authoritative one. -/
def FilterObject.processBlock (fo : FilterObject α) (samples : List α) :
    Bool × List α × FilterObject α :=
  if fo.bypass then (false, samples, fo)
  else
    match fo.filter with
    | some f =>
      if samples.isEmpty then (true, samples, fo)
      else
        let r := f.processBlockScalar samples
        (true, r.1, { fo with filter := some r.2 })
    | none => (false, samples, fo)

/-- Embedding of FilterObject::set_cutoff: rejects non-positive cutoff
without any change; otherwise stores the new cutoff, recomputes the
coefficients, and pushes them into the core when one is present (returning
true), or returns false with only the stored parameter updated when the
core is absent. -/
def FilterObject.set_cutoff (fo : FilterObject α) (cutoff : α) :
    Bool × FilterObject α :=
  if cutoff ≤ 0 then (false, fo)
  else
    let p := { fo.params with cutoff := cutoff }
    let newCoefficients := fo.calcCoefficients p
    match fo.filter with
    | some f =>
      let fnew := (f.set_coefficients newCoefficients).2
      (true, { fo with params := p, filter := some fnew })
    | none => (false, { fo with params := p })

/-- Embedding of FilterObject::set_sample_rate, with the same shape as
set_cutoff but guarding an integer sample rate. -/
def FilterObject.set_sample_rate (fo : FilterObject α) (sampleRate : ℤ) :
    Bool × FilterObject α :=
  if sampleRate ≤ 0 then (false, fo)
  else
    let p := { fo.params with sampleRate := sampleRate }
    let newCoefficients := fo.calcCoefficients p
    match fo.filter with
    | some f =>
      let fnew := (f.set_coefficients newCoefficients).2
      (true, { fo with params := p, filter := some fnew })
    | none => (false, { fo with params := p })

/-- Embedding of FilterObject::set_q_factor, with the same shape as
set_cutoff. -/
def FilterObject.set_q_factor (fo : FilterObject α) (qFactor : α) :
    Bool × FilterObject α :=
  if qFactor ≤ 0 then (false, fo)
  else
    let p := { fo.params with qFactor := qFactor }
    let newCoefficients := fo.calcCoefficients p
    match fo.filter with
    | some f =>
      let fnew := (f.set_coefficients newCoefficients).2
      (true, { fo with params := p, filter := some fnew })
    | none => (false, { fo with params := p })

/-- Embedding of FilterObject::set_gain: no validity check on the argument;
stores the gain, recomputes coefficients, pushes them into the core when
present, and returns false exactly when the core is absent. -/
def FilterObject.set_gain (fo : FilterObject α) (gain : α) :
    Bool × FilterObject α :=
  let p := { fo.params with gain := gain }
  let newCoefficients := fo.calcCoefficients p
  match fo.filter with
  | some f =>
    let fnew := (f.set_coefficients newCoefficients).2
    (true, { fo with params := p, filter := some fnew })
  | none => (false, { fo with params := p })

/-- Embedding of FilterObject::set_bypass: just stores the flag. -/
def FilterObject.set_bypass (fo : FilterObject α) (bypass : Bool) :
    FilterObject α :=
  { fo with bypass := bypass }

/-- Embedding of the accessor FilterObject::get_cutoff. -/
def FilterObject.get_cutoff (fo : FilterObject α) : α := fo.params.cutoff

/-- Embedding of the accessor FilterObject::get_sample_rate. -/
def FilterObject.get_sample_rate (fo : FilterObject α) : ℤ :=
  fo.params.sampleRate

/-- Embedding of the accessor FilterObject::get_q_factor. -/
def FilterObject.get_q_factor (fo : FilterObject α) : α := fo.params.qFactor

/-- Embedding of the accessor FilterObject::get_gain. -/
def FilterObject.get_gain (fo : FilterObject α) : α := fo.params.gain

/-- Embedding of the accessor FilterObject::get_bypass. -/
def FilterObject.get_bypass (fo : FilterObject α) : Bool := fo.bypass

/-- Embedding of the static FilterObject::verify_parameters: true unless
the sample rate, cutoff or quality factor is non-positive or the cutoff
exceeds half the sample rate. -/
def verify_parameters (cutoff : α) (sampleRate : ℤ) (qFactor : α) : Bool :=
  if sampleRate ≤ 0 ∨ cutoff ≤ 0 ∨ qFactor ≤ 0 ∨
      (sampleRate : α) / 2 < cutoff then false
  else true

end FilterObjectOps

/-- The seven concrete filter kinds deriving from FilterObject (band-pass
covering both its peak-gain and constant-skirt-gain modes through the
flag in the parameters). -/
inductive FilterKind : Type where
  | lowPass
  | highPass
  | bandPass
  | notch
  | allPass
  | peakingEQ
  | lowShelf
  | highShelf
deriving DecidableEq

/-- Embedding of the per-kind calculate_coefficients overrides: w0, cos_w0,
alpha and (for the gain kinds) A = 10^(gain/40) are computed as in the
source, then the kind's closed-form coefficient set is returned. -/
noncomputable def FilterKind.calculate_coefficients (k : FilterKind)
    (p : FilterParams ℝ) : Coefficients ℝ :=
  let w0 := 2 * Real.pi * p.cutoff / (p.sampleRate : ℝ)
  let cos_w0 := Real.cos w0
  let alpha := Real.sin w0 / (2 * p.qFactor)
  match k with
  | .lowPass =>
    let b1 := 1 - cos_w0
    let b0 := b1 / 2
    { b0 := b0, b1 := b1, b2 := b0,
      a0 := 1 + alpha, a1 := -2 * cos_w0, a2 := 1 - alpha }
  | .highPass =>
    let b1 := -(1 + cos_w0)
    let b0 := -b1 / 2
    { b0 := b0, b1 := b1, b2 := b0,
      a0 := 1 + alpha, a1 := -2 * cos_w0, a2 := 1 - alpha }
  | .bandPass =>
    if p.constantSkirtGain then
      { b0 := p.qFactor * alpha, b1 := 0, b2 := -p.qFactor * alpha,
        a0 := 1 + alpha, a1 := -2 * cos_w0, a2 := 1 - alpha }
    else
      { b0 := alpha, b1 := 0, b2 := -alpha,
        a0 := 1 + alpha, a1 := -2 * cos_w0, a2 := 1 - alpha }
  | .notch =>
    { b0 := 1, b1 := -2 * cos_w0, b2 := 1,
      a0 := 1 + alpha, a1 := -2 * cos_w0, a2 := 1 - alpha }
  | .allPass =>
    { b0 := 1 - alpha, b1 := -2 * cos_w0, b2 := 1 + alpha,
      a0 := 1 + alpha, a1 := -2 * cos_w0, a2 := 1 - alpha }
  | .peakingEQ =>
    let A := (10 : ℝ) ^ (p.gain / 40)
    { b0 := 1 + alpha * A, b1 := -2 * cos_w0, b2 := 1 - alpha * A,
      a0 := 1 + alpha / A, a1 := -2 * cos_w0, a2 := 1 - alpha / A }
  | .lowShelf =>
    let A := (10 : ℝ) ^ (p.gain / 40)
    { b0 := A * (A + 1 - (A - 1) * cos_w0 + 2 * Real.sqrt A * alpha),
      b1 := 2 * A * (A - 1 - (A + 1) * cos_w0),
      b2 := A * (A + 1 - (A - 1) * cos_w0 - 2 * Real.sqrt A * alpha),
      a0 := A + 1 + (A - 1) * cos_w0 + 2 * Real.sqrt A * alpha,
      a1 := -2 * (A - 1 + (A + 1) * cos_w0),
      a2 := A + 1 + (A - 1) * cos_w0 - 2 * Real.sqrt A * alpha }
  | .highShelf =>
    let A := (10 : ℝ) ^ (p.gain / 40)
    { b0 := A * (A + 1 + (A - 1) * cos_w0 + 2 * Real.sqrt A * alpha),
      b1 := -2 * A * (A - 1 + (A + 1) * cos_w0),
      b2 := A * (A + 1 + (A - 1) * cos_w0 - 2 * Real.sqrt A * alpha),
      a0 := A + 1 - (A - 1) * cos_w0 + 2 * Real.sqrt A * alpha,
      a1 := 2 * (A - 1 - (A + 1) * cos_w0),
      a2 := A + 1 - (A - 1) * cos_w0 - 2 * Real.sqrt A * alpha }

/-- Embedding of the shared shape of every FilterType factory create:
verify_parameters first, then construction of the wrapper (bypass off),
computation of the kind's coefficients and creation of the owned core;
creation fails when the core could not be constructed. -/
noncomputable def FilterKind.create (k : FilterKind) (cutoff : ℝ)
    (sampleRate : ℤ) (qFactor : ℝ) (gain : ℝ) (constantSkirtGain : Bool) :
    Option (FilterObject ℝ) :=
  if verify_parameters cutoff sampleRate qFactor = true then
    let p : FilterParams ℝ :=
      { cutoff := cutoff, sampleRate := sampleRate, qFactor := qFactor,
        gain := gain, constantSkirtGain := constantSkirtGain }
    let fobj : FilterObject ℝ :=
      { calcCoefficients := k.calculate_coefficients,
        filter := DigitalBiquadFilter.create (k.calculate_coefficients p),
        params := p, bypass := false }
    match fobj.filter with
    | none => none
    | some _ => some fobj
  else none

/-- Embedding of the bandwidth-to-quality-factor conversion inside
FilterObject::set_bandwidth: Q = 1 / (2 · sinh(bandwidth · log10(2) / 2)),
exactly as the source computes it with std::log10(2.0). -/
noncomputable def bandwidth_to_q (bandwidth : ℝ) : ℝ :=
  1 / (2 * Real.sinh (bandwidth * Real.logb 10 2 / 2))

/-- Embedding of FilterObject::set_bandwidth: rejects non-positive
bandwidth, otherwise converts to a quality factor and delegates to
set_q_factor. -/
noncomputable def FilterObject.set_bandwidth (fo : FilterObject ℝ)
    (bandwidth : ℝ) : Bool × FilterObject ℝ :=
  if bandwidth ≤ 0 then (false, fo)
  else fo.set_q_factor (bandwidth_to_q bandwidth)

/-- Embedding of FilterObject::get_bandwidth: the inverse conversion
bandwidth = 2 · asinh(1/(2Q)) / log10(2), with std::log10(2.0) again. -/
noncomputable def FilterObject.get_bandwidth (fo : FilterObject ℝ) : ℝ :=
  2 * Real.arsinh (1 / (2 * fo.params.qFactor)) / Real.logb 10 2

/-- A concrete valid filter used as a test vector: the one-pole accumulator
y[n] = x[n] + y[n-1], whose coefficients are already normalized. -/
def bugFilter : DigitalBiquadFilter ℚ :=
  { coeffs := { b0 := 1, b1 := 0, b2 := 0, a0 := 1, a1 := -1, a2 := 0 },
    state := zeroState, iter := 0 }

/-- A concrete un-normalized coefficient set with a0 = 2. -/
def coefRaw : Coefficients ℚ := { b0 := 1, b1 := 0, b2 := 0, a0 := 2, a1 := 0, a2 := 0 }

/-- A concrete coefficient set with a0 = 0, rejected by the factories. -/
def coefZero : Coefficients ℚ := { b0 := 1, b1 := 0, b2 := 0, a0 := 0, a1 := 0, a2 := 0 }

/-- A concrete filter with non-trivial state and counter. -/
def fQ : DigitalBiquadFilter ℚ :=
  { coeffs := { b0 := 3, b1 := 1, b2 := 1, a0 := 1, a1 := 1, a2 := 1 },
    state := { x1 := 5, x2 := 6, y1 := 7, y2 := 8 }, iter := 9 }

/-- The filter that creating from coefRaw yields: coefRaw normalized, zero
state, zero counter. -/
def gQ : DigitalBiquadFilter ℚ :=
  { coeffs := { b0 := 1 / 2, b1 := 0, b2 := 0, a0 := 1, a1 := 0, a2 := 0 },
    state := zeroState, iter := 0 }

/-- A constant coefficient-derivation function standing in for a concrete
calculate_coefficients override in the test fixtures. -/
def calcConstQ : FilterParams ℚ → Coefficients ℚ :=
  fun _ => { b0 := 1, b1 := 0, b2 := 0, a0 := 1, a1 := 0, a2 := 0 }

/-- Concrete design parameters for the fixtures. -/
def paramsQ : FilterParams ℚ :=
  { cutoff := 100, sampleRate := 1000, qFactor := 1, gain := 0,
    constantSkirtGain := false }

/-- A concrete wrapper owning a core, bypass off. -/
def foCore : FilterObject ℚ :=
  { calcCoefficients := calcConstQ, filter := some bugFilter,
    params := paramsQ, bypass := false }

/-- The same wrapper with bypass on. -/
def foBypassed : FilterObject ℚ := { foCore with bypass := true }

/-- A concrete wrapper whose owned core is absent. -/
def foNoCore : FilterObject ℚ :=
  { calcCoefficients := calcConstQ, filter := none,
    params := paramsQ, bypass := false }

/-- A concrete real-valued wrapper (core absent) for the bandwidth
fixtures. -/
noncomputable def foR : FilterObject ℝ :=
  { calcCoefficients := fun _ => { b0 := 1, b1 := 0, b2 := 0, a0 := 1, a1 := 0, a2 := 0 },
    filter := none,
    params := { cutoff := 1, sampleRate := 1, qFactor := 1, gain := 0, constantSkirtGain := false },
    bypass := false }

/-- C2: a single process(sample) call outputs
y = b0·x0 + b1·x1 + b2·x2 − a1·y1 − a2·y2 on the stored normalized
coefficients, shifts the state to x1' = x0, x2' = x1, y1' = y, y2' = y1,
leaves the coefficients unchanged, advances the counter, and never fails
(it is a total function in the embedding). -/
theorem c2_process_single_sample (f : DigitalBiquadFilter ℚ) (x0 : ℚ) :
    (f.process x0).1 =
      f.coeffs.b0 * x0 + f.coeffs.b1 * f.state.x1 + f.coeffs.b2 * f.state.x2
        - f.coeffs.a1 * f.state.y1 - f.coeffs.a2 * f.state.y2
    ∧ (f.process x0).2.coeffs = f.coeffs
    ∧ (f.process x0).2.state.x1 = x0
    ∧ (f.process x0).2.state.x2 = f.state.x1
    ∧ (f.process x0).2.state.y1 = (f.process x0).1
    ∧ (f.process x0).2.state.y2 = f.state.y1
    ∧ (f.process x0).2.iter = f.iter + 1 :=
  ⟨rfl, rfl, rfl, rfl, rfl, rfl, rfl⟩

/-- C1: the scalar block path coincides with sequential single-sample
processing on every buffer, but on the concrete accumulator filter and the
buffer [1,1,1,1] the AVX double path (lane width 4) writes [1,1,1,1] and
final state (x1,x2,y1,y2) = (1,0,1,0) with the counter not advanced,
whereas sequential processing writes [1,2,3,4] with final state (1,1,4,3)
and counter 4 — so the vectorized path does not produce the same output
samples and final state as count sequential process(sample) calls. -/
theorem c1_block_process_avx_diverges_from_sequential :
    (∀ (f : DigitalBiquadFilter ℚ) (xs : List ℚ),
      f.processBlockScalar xs = f.processSeq xs)
    ∧ (bugFilter.processSeq [1, 1, 1, 1]).1 = [1, 2, 3, 4]
    ∧ (bugFilter.processSeq [1, 1, 1, 1]).2.state =
        { x1 := 1, x2 := 1, y1 := 4, y2 := 3 }
    ∧ (bugFilter.processSeq [1, 1, 1, 1]).2.iter = 4
    ∧ (bugFilter.process_block_avx [1, 1, 1, 1]).1 = [1, 1, 1, 1]
    ∧ (bugFilter.process_block_avx [1, 1, 1, 1]).2.state =
        { x1 := 1, x2 := 0, y1 := 1, y2 := 0 }
    ∧ (bugFilter.process_block_avx [1, 1, 1, 1]).2.iter = 0
    ∧ bugFilter.process_block_avx [1, 1, 1, 1] ≠
        bugFilter.processSeq [1, 1, 1, 1] := by
  have hseq : bugFilter.processSeq [1, 1, 1, 1] = ([1, 2, 3, 4], { coeffs := bugFilter.coeffs, state := { x1 := 1, x2 := 1, y1 := 4, y2 := 3 }, iter := 4 }) := by
    norm_num [bugFilter, DigitalBiquadFilter.processSeq,
      DigitalBiquadFilter.process, zeroState]
  have havx : bugFilter.process_block_avx [1, 1, 1, 1] = ([1, 1, 1, 1], { coeffs := bugFilter.coeffs, state := { x1 := 1, x2 := 0, y1 := 1, y2 := 0 }, iter := 0 }) := by
    norm_num [bugFilter, DigitalBiquadFilter.process_block_avx, avxLoop,
      avxVec, avxLane, splat4, lane0, zeroState]
  refine ⟨?_, by rw [hseq], by rw [hseq], by rw [hseq], by rw [havx],
    by rw [havx], by rw [havx], ?_⟩
  · intro f xs
    induction xs generalizing f with
    | nil => rfl
    | cons x xs ih =>
      simp only [DigitalBiquadFilter.processBlockScalar,
        DigitalBiquadFilter.processSeq, ih]
  · rw [hseq, havx]
    norm_num

/-- C3 counterexample: the legacy src/inc DigitalBiquadFilter::create with
coefficients {1,0,0,2,0,0} (a0 = 2 ≠ 0) returns a filter whose stored a0
is still 2, not 1 as the claim asserts of the stored coefficients. -/
theorem c3_counterexample :
    (DigitalBiquadFilter.createLegacy coefRaw).map (fun f => f.coeffs.a0) =
        some 2
    ∧ (2 : ℚ) ≠ 1 := by
  norm_num [DigitalBiquadFilter.createLegacy, coefRaw, zeroState]

/-- C3 amended: the biquad-filters-cpp create fails exactly when a0 = 0 and
otherwise stores the coefficients divided by the original a0 with a0 set to
1 and an all-zero state and counter, as claimed; the legacy src/inc create
has the same failure condition and zero initial state and counter but
stores the raw coefficients unchanged, dividing by a0 inside every process
call instead, which produces the same output and state trajectory as the
normalized filter. -/
theorem c3_create_normalization (c : Coefficients ℚ) (s : State ℚ) (i : ℤ)
    (x : ℚ) :
    (DigitalBiquadFilter.create c =
      if c.a0 = 0 then none
      else some { coeffs := { b0 := c.b0 / c.a0, b1 := c.b1 / c.a0,
                              b2 := c.b2 / c.a0, a0 := 1, a1 := c.a1 / c.a0,
                              a2 := c.a2 / c.a0 },
                  state := { x1 := 0, x2 := 0, y1 := 0, y2 := 0 },
                  iter := 0 })
    ∧ (DigitalBiquadFilter.createLegacy c =
      if c.a0 = 0 then none
      else some { coeffs := c,
                  state := { x1 := 0, x2 := 0, y1 := 0, y2 := 0 },
                  iter := 0 })
    ∧ (DigitalBiquadFilter.processLegacy { coeffs := c, state := s, iter := i } x).1
        = (DigitalBiquadFilter.process
            { coeffs := normalize_coefficients c, state := s, iter := i } x).1
    ∧ (DigitalBiquadFilter.processLegacy { coeffs := c, state := s, iter := i } x).2.state
        = (DigitalBiquadFilter.process
            { coeffs := normalize_coefficients c, state := s, iter := i } x).2.state := by
  refine ⟨?_, ?_, rfl, ?_⟩
  · by_cases h : c.a0 = 0 <;>
      simp [DigitalBiquadFilter.create, h, normalize_coefficients, zeroState]
  · by_cases h : c.a0 = 0 <;>
      simp [DigitalBiquadFilter.createLegacy, h, zeroState]
  · simp only [DigitalBiquadFilter.processLegacy, DigitalBiquadFilter.process,
      normalize_coefficients]

/-- C6: set_coefficients returns false and leaves the filter untouched when
a0 = 0; when create would succeed on the same coefficients, it returns true
and the resulting filter is exactly the freshly created one, so processing
any sample afterwards matches the fresh filter's output with no leakage of
old state. -/
theorem c6_set_coefficients_resets (f g : DigitalBiquadFilter ℚ)
    (c : Coefficients ℚ) (x : ℚ) :
    (c.a0 = 0 → f.set_coefficients c = (false, f))
    ∧ (DigitalBiquadFilter.create c = some g →
        f.set_coefficients c = (true, g)
        ∧ (f.set_coefficients c).2.process x = g.process x) := by
  constructor
  · intro h
    simp [DigitalBiquadFilter.set_coefficients, h]
  · intro h
    have ha : ¬ c.a0 = 0 := by
      intro h0
      simp [DigitalBiquadFilter.create, h0] at h
    have hg : (⟨normalize_coefficients c, zeroState, 0⟩ : DigitalBiquadFilter ℚ) = g := by
      rw [DigitalBiquadFilter.create, if_neg ha] at h
      exact Option.some.inj h
    constructor
    · simp [DigitalBiquadFilter.set_coefficients, ha, hg]
    · simp [DigitalBiquadFilter.set_coefficients, ha, hg]

/-- C6 witness: the theorem applied at the concrete filter fQ, the a0 = 0
coefficient set coefZero, the valid set coefRaw with fresh filter gQ, and
the sample 3. -/
theorem c6_witness :
    (coefZero.a0 = 0 ∧ fQ.set_coefficients coefZero = (false, fQ))
    ∧ (DigitalBiquadFilter.create coefRaw = some gQ
       ∧ fQ.set_coefficients coefRaw = (true, gQ)
       ∧ (fQ.set_coefficients coefRaw).2.process 3 = gQ.process 3) := by
  have h1 : coefZero.a0 = 0 := rfl
  have h2 : DigitalBiquadFilter.create coefRaw = some gQ := by
    norm_num [DigitalBiquadFilter.create, coefRaw, gQ,
      normalize_coefficients, zeroState]
  exact ⟨⟨h1, (c6_set_coefficients_resets fQ gQ coefZero 3).1 h1⟩,
    ⟨h2, ((c6_set_coefficients_resets fQ gQ coefRaw 3).2 h2).1,
      ((c6_set_coefficients_resets fQ gQ coefRaw 3).2 h2).2⟩⟩

/-- C8: set_cutoff, set_sample_rate and set_q_factor each return false on a
non-positive argument and leave the whole wrapper — stored design
parameters, owned core coefficients and state — exactly as it was. -/
theorem c8_setters_reject_nonpositive (fo : FilterObject ℚ) (v : ℚ)
    (n : ℤ) :
    (v ≤ 0 → fo.set_cutoff v = (false, fo) ∧ fo.set_q_factor v = (false, fo))
    ∧ (n ≤ 0 → fo.set_sample_rate n = (false, fo)) := by
  constructor
  · intro h
    constructor
    · simp [FilterObject.set_cutoff, h]
    · simp [FilterObject.set_q_factor, h]
  · intro h
    simp [FilterObject.set_sample_rate, h]

/-- C8 witness: the theorem applied to the concrete core-owning wrapper at
the non-positive arguments 0. -/
theorem c8_witness :
    ((0 : ℚ) ≤ 0 ∧ foCore.set_cutoff 0 = (false, foCore)
      ∧ foCore.set_q_factor 0 = (false, foCore))
    ∧ ((0 : ℤ) ≤ 0 ∧ foCore.set_sample_rate 0 = (false, foCore)) := by
  have h := c8_setters_reject_nonpositive foCore 0 0
  exact ⟨⟨le_refl 0, (h.1 (le_refl 0)).1, (h.1 (le_refl 0)).2⟩,
    ⟨le_refl 0, h.2 (le_refl 0)⟩⟩

/-- C9: with bypass set, both single-sample and block process return false
and change neither the samples nor the wrapper; and toggling bypass on and
then off restores a previously un-bypassed wrapper exactly, parameters,
coefficients and state included, so processing afterwards behaves as on a
never-bypassed filter with no recomputation. -/
theorem c9_bypass_noop_and_restore (fo : FilterObject ℚ) (x : ℚ)
    (xs : List ℚ) :
    (fo.bypass = true →
      fo.process x = (false, x, fo)
      ∧ fo.processBlock xs = (false, xs, fo))
    ∧ (fo.bypass = false → (fo.set_bypass true).set_bypass false = fo) := by
  constructor
  · intro h
    constructor
    · simp [FilterObject.process, h]
    · simp [FilterObject.processBlock, h]
  · intro h
    cases fo
    simp_all [FilterObject.set_bypass]

/-- C9 witness: the theorem applied to the concrete bypassed wrapper (no-op
part) and to the concrete un-bypassed wrapper (restore part). -/
theorem c9_witness :
    (foBypassed.bypass = true
      ∧ foBypassed.process 2 = (false, 2, foBypassed)
      ∧ foBypassed.processBlock [1, 2] = (false, [1, 2], foBypassed))
    ∧ (foCore.bypass = false
      ∧ (foCore.set_bypass true).set_bypass false = foCore) := by
  have h1 := c9_bypass_noop_and_restore foBypassed 2 [1, 2]
  have h2 := c9_bypass_noop_and_restore foCore 2 [1, 2]
  exact ⟨⟨rfl, (h1.1 rfl).1, (h1.1 rfl).2⟩, ⟨rfl, h2.2 rfl⟩⟩

/-- C10: when the owned core is absent, set_cutoff, set_sample_rate,
set_q_factor and set_gain return false on an argument passing the
positivity check (set_gain has no check at all) yet still overwrite the
stored design parameter, as the subsequent getter shows. -/
theorem c10_absent_core_setters_update_params (fo : FilterObject ℚ)
    (v : ℚ) (n : ℤ) (g : ℚ) :
    fo.filter = none →
    (0 < v →
      (fo.set_cutoff v).1 = false ∧ (fo.set_cutoff v).2.get_cutoff = v
      ∧ (fo.set_q_factor v).1 = false
      ∧ (fo.set_q_factor v).2.get_q_factor = v)
    ∧ (0 < n →
      (fo.set_sample_rate n).1 = false
      ∧ (fo.set_sample_rate n).2.get_sample_rate = n)
    ∧ (fo.set_gain g).1 = false ∧ (fo.set_gain g).2.get_gain = g := by
  intro hnone
  refine ⟨?_, ?_, ?_, ?_⟩
  · intro h
    refine ⟨?_, ?_, ?_, ?_⟩ <;>
      simp [FilterObject.set_cutoff, FilterObject.set_q_factor,
        FilterObject.get_cutoff, FilterObject.get_q_factor, hnone,
        not_le.mpr h]
  · intro h
    constructor <;>
      simp [FilterObject.set_sample_rate, FilterObject.get_sample_rate,
        hnone, not_le.mpr h]
  · simp [FilterObject.set_gain, hnone]
  · simp [FilterObject.set_gain, FilterObject.get_gain, hnone]

/-- C10 witness: the theorem applied to the concrete core-less wrapper at
cutoff 1, quality factor 1, sample rate 2 and gain 5. -/
theorem c10_witness :
    (foNoCore.filter = none ∧ (0 : ℚ) < 1 ∧ (0 : ℤ) < 2)
    ∧ (foNoCore.set_cutoff 1).1 = false
    ∧ (foNoCore.set_cutoff 1).2.get_cutoff = 1
    ∧ (foNoCore.set_q_factor 1).1 = false
    ∧ (foNoCore.set_q_factor 1).2.get_q_factor = 1
    ∧ (foNoCore.set_sample_rate 2).1 = false
    ∧ (foNoCore.set_sample_rate 2).2.get_sample_rate = 2
    ∧ (foNoCore.set_gain 5).1 = false
    ∧ (foNoCore.set_gain 5).2.get_gain = 5 := by
  have h := c10_absent_core_setters_update_params foNoCore 1 2 5 rfl
  have ha := h.1 one_pos
  have hb := h.2.1 (by decide)
  exact ⟨⟨rfl, one_pos, by decide⟩, ha.1, ha.2.1, ha.2.2.1, ha.2.2.2,
    hb.1, hb.2, h.2.2.1, h.2.2.2⟩

/-- The base-10 logarithm of 2 appearing in the source's bandwidth
conversions is positive. -/
lemma logb_ten_two_pos : 0 < Real.logb 10 2 :=
  Real.logb_pos (by norm_num) (by norm_num)

/-- The natural logarithm of 10 exceeds 1 (since e < 10). -/
lemma one_lt_log_ten : 1 < Real.log 10 := by
  rw [Real.lt_log_iff_exp_lt (by norm_num : (0 : ℝ) < 10)]
  have h := Real.exp_one_lt_d9
  norm_num at h ⊢
  linarith

/-- The source's conversion constant log10(2) is strictly smaller than the
spec's claimed constant ln 2. -/
lemma logb_ten_two_lt_log_two : Real.logb 10 2 < Real.log 2 := by
  have hd : Real.logb 10 2 = Real.log 2 / Real.log 10 := rfl
  rw [hd]
  exact div_lt_self (Real.log_pos (by norm_num)) one_lt_log_ten

/-- The quality factor computed by set_bandwidth is positive for positive
bandwidth. -/
lemma bandwidth_to_q_pos (bw : ℝ) (h : 0 < bw) : 0 < bandwidth_to_q bw := by
  unfold bandwidth_to_q
  have hx : 0 < bw * Real.logb 10 2 / 2 := by
    have := mul_pos h logb_ten_two_pos
    linarith
  have hs : 0 < Real.sinh (bw * Real.logb 10 2 / 2) :=
    Real.sinh_pos_iff.mpr hx
  exact div_pos one_pos (by linarith)

/-- A successful set_q_factor stores its argument as the quality factor, in
both the core-present and core-absent branches. -/
lemma set_q_factor_params_qFactor {α : Type} [LinearOrderedField α]
    [DecidableEq α] (fo : FilterObject α) (q : α) (h : 0 < q) :
    (fo.set_q_factor q).2.params.qFactor = q := by
  cases hf : fo.filter <;>
    simp [FilterObject.set_q_factor, not_le.mpr h, hf]

/-- For positive bandwidth, set_bandwidth is exactly set_q_factor at the
converted quality factor. -/
lemma set_bandwidth_eq_set_q_factor (fo : FilterObject ℝ) (bw : ℝ)
    (h : 0 < bw) :
    fo.set_bandwidth bw = fo.set_q_factor (bandwidth_to_q bw) := by
  simp [FilterObject.set_bandwidth, not_le.mpr h]

/-- C4 counterexample: on the concrete wrapper and bandwidth 2, the quality
factor stored by set_bandwidth differs from the claim's
1/(2·sinh((bandwidth·ln 2)/2)), because the source computes with log10(2)
rather than the natural logarithm of 2. -/
theorem c4_counterexample :
    (foR.set_bandwidth 2).2.params.qFactor ≠
      1 / (2 * Real.sinh (2 * Real.log 2 / 2)) := by
  have h2 : (0 : ℝ) < 2 := two_pos
  rw [set_bandwidth_eq_set_q_factor foR 2 h2,
    set_q_factor_params_qFactor foR _ (bandwidth_to_q_pos 2 h2)]
  unfold bandwidth_to_q
  have e1 : (2 : ℝ) * Real.logb 10 2 / 2 = Real.logb 10 2 := by ring
  have e2 : (2 : ℝ) * Real.log 2 / 2 = Real.log 2 := by ring
  rw [e1, e2]
  have hsp : 0 < Real.sinh (Real.logb 10 2) :=
    Real.sinh_pos_iff.mpr logb_ten_two_pos
  have hss : Real.sinh (Real.logb 10 2) < Real.sinh (Real.log 2) :=
    Real.sinh_lt_sinh.mpr logb_ten_two_lt_log_two
  have hgt : 1 / (2 * Real.sinh (Real.log 2)) <
      1 / (2 * Real.sinh (Real.logb 10 2)) :=
    one_div_lt_one_div_of_lt (by linarith) (by linarith)
  exact ne_of_gt hgt

/-- C4 amended: set_bandwidth fails on a non-positive bandwidth without any
change; on a positive bandwidth it sets the quality factor to
Q = 1/(2·sinh((bandwidth·log10(2))/2)) — base-10 logarithm of 2, as the
source computes with std::log10 — this Q is positive, and the call is
exactly set_q_factor(Q). -/
theorem c4_set_bandwidth_uses_log10 (fo : FilterObject ℝ) (bw : ℝ) :
    (bw ≤ 0 → fo.set_bandwidth bw = (false, fo))
    ∧ (0 < bw →
        fo.set_bandwidth bw = fo.set_q_factor (bandwidth_to_q bw)
        ∧ 0 < bandwidth_to_q bw
        ∧ (fo.set_bandwidth bw).2.params.qFactor = bandwidth_to_q bw) := by
  constructor
  · intro h
    simp [FilterObject.set_bandwidth, h]
  · intro h
    refine ⟨set_bandwidth_eq_set_q_factor fo bw h,
      bandwidth_to_q_pos bw h, ?_⟩
    rw [set_bandwidth_eq_set_q_factor fo bw h]
    exact set_q_factor_params_qFactor fo _ (bandwidth_to_q_pos bw h)

/-- C4 witness: the amended theorem applied to the concrete wrapper at
bandwidth 1. -/
theorem c4_witness :
    (0 : ℝ) < 1
    ∧ foR.set_bandwidth 1 = foR.set_q_factor (bandwidth_to_q 1)
    ∧ 0 < bandwidth_to_q 1
    ∧ (foR.set_bandwidth 1).2.params.qFactor = bandwidth_to_q 1 := by
  have h := (c4_set_bandwidth_uses_log10 foR 1).2 one_pos
  exact ⟨one_pos, h.1, h.2.1, h.2.2⟩

/-- C5: for every wrapper and every positive bandwidth, set_bandwidth then
get_bandwidth returns the bandwidth exactly over the reals, because the two
conversions (both built on the same log10(2) constant) are mutually
inverse. -/
theorem c5_bandwidth_roundtrip (fo : FilterObject ℝ) (bw : ℝ)
    (h : 0 < bw) :
    (fo.set_bandwidth bw).2.get_bandwidth = bw := by
  have hq := bandwidth_to_q_pos bw h
  rw [set_bandwidth_eq_set_q_factor fo bw h]
  unfold FilterObject.get_bandwidth
  rw [set_q_factor_params_qFactor fo _ hq]
  have hx : 0 < bw * Real.logb 10 2 / 2 := by
    have := mul_pos h logb_ten_two_pos
    linarith
  have hs : 0 < Real.sinh (bw * Real.logb 10 2 / 2) :=
    Real.sinh_pos_iff.mpr hx
  unfold bandwidth_to_q
  have e : (1 : ℝ) / (2 * (1 / (2 * Real.sinh (bw * Real.logb 10 2 / 2))))
      = Real.sinh (bw * Real.logb 10 2 / 2) := by
    field_simp
  rw [e, Real.arsinh_sinh]
  have hL : Real.logb 10 2 ≠ 0 := ne_of_gt logb_ten_two_pos
  field_simp

/-- C5 witness: the round trip at the concrete wrapper and bandwidth 1. -/
theorem c5_witness :
    (0 : ℝ) < 1 ∧ (foR.set_bandwidth 1).2.get_bandwidth = 1 :=
  ⟨one_pos, c5_bandwidth_roundtrip foR 1 one_pos⟩

/-- The shared shelf denominator A + 1 ± (A−1)·cos_w0 + 2·√A·α is positive
whenever A is positive, the cosine is within [−1, 1], and √A and α are
nonnegative. -/
lemma shelf_a0_pos (A c s al : ℝ) (hA : 0 < A) (hc1 : -1 ≤ c)
    (hc2 : c ≤ 1) (hs : 0 ≤ s) (hal : 0 ≤ al) :
    0 < A + 1 + (A - 1) * c + 2 * s * al := by
  rcases le_total A 1 with h | h
  · nlinarith [mul_nonneg (by linarith : (0 : ℝ) ≤ 1 - A)
      (by linarith : (0 : ℝ) ≤ 1 - c), mul_nonneg hs hal]
  · nlinarith [mul_nonneg (by linarith : (0 : ℝ) ≤ A - 1)
      (by linarith : (0 : ℝ) ≤ 1 + c), mul_nonneg hs hal]

/-- For parameters passing verify_parameters, every kind's derived a0 is
positive: w0 lies in (0, π], so sin w0 ≥ 0 and α ≥ 0, making 1 + α (and
its peaking and shelf analogues) positive. -/
lemma calculate_coefficients_a0_pos (k : FilterKind) (p : FilterParams ℝ)
    (h1 : 0 < p.sampleRate) (h2 : 0 < p.cutoff) (h3 : 0 < p.qFactor)
    (h4 : p.cutoff ≤ (p.sampleRate : ℝ) / 2) :
    0 < (k.calculate_coefficients p).a0 := by
  have hfs : (0 : ℝ) < (p.sampleRate : ℝ) := by exact_mod_cast h1
  have hw0 : 0 < 2 * Real.pi * p.cutoff / (p.sampleRate : ℝ) :=
    div_pos (by positivity) hfs
  have hwpi : 2 * Real.pi * p.cutoff / (p.sampleRate : ℝ) ≤ Real.pi := by
    rw [div_le_iff₀ hfs]
    nlinarith [Real.pi_pos]
  have hsin : 0 ≤ Real.sin (2 * Real.pi * p.cutoff / (p.sampleRate : ℝ)) :=
    Real.sin_nonneg_of_nonneg_of_le_pi (le_of_lt hw0) hwpi
  have halpha : 0 ≤ Real.sin (2 * Real.pi * p.cutoff / (p.sampleRate : ℝ))
      / (2 * p.qFactor) :=
    div_nonneg hsin (by linarith)
  have hcos1 : -1 ≤ Real.cos (2 * Real.pi * p.cutoff / (p.sampleRate : ℝ)) :=
    Real.neg_one_le_cos _
  have hcos2 : Real.cos (2 * Real.pi * p.cutoff / (p.sampleRate : ℝ)) ≤ 1 :=
    Real.cos_le_one _
  have hA : 0 < (10 : ℝ) ^ (p.gain / 40) :=
    Real.rpow_pos_of_pos (by norm_num) _
  have hsq : 0 ≤ Real.sqrt ((10 : ℝ) ^ (p.gain / 40)) := Real.sqrt_nonneg _
  cases k with
  | lowPass =>
    simp only [FilterKind.calculate_coefficients]
    linarith
  | highPass =>
    simp only [FilterKind.calculate_coefficients]
    linarith
  | bandPass =>
    simp only [FilterKind.calculate_coefficients]
    by_cases hsk : p.constantSkirtGain <;> simp only [hsk] <;> simp <;>
      linarith
  | notch =>
    simp only [FilterKind.calculate_coefficients]
    linarith
  | allPass =>
    simp only [FilterKind.calculate_coefficients]
    linarith
  | peakingEQ =>
    simp only [FilterKind.calculate_coefficients]
    have hda : 0 ≤ Real.sin (2 * Real.pi * p.cutoff / (p.sampleRate : ℝ))
        / (2 * p.qFactor) / (10 : ℝ) ^ (p.gain / 40) :=
      div_nonneg halpha (le_of_lt hA)
    linarith
  | lowShelf =>
    simp only [FilterKind.calculate_coefficients]
    exact shelf_a0_pos _ _ _ _ hA hcos1 hcos2 hsq halpha
  | highShelf =>
    simp only [FilterKind.calculate_coefficients]
    have hneg := shelf_a0_pos ((10 : ℝ) ^ (p.gain / 40))
      (-(Real.cos (2 * Real.pi * p.cutoff / (p.sampleRate : ℝ))))
      (Real.sqrt ((10 : ℝ) ^ (p.gain / 40)))
      (Real.sin (2 * Real.pi * p.cutoff / (p.sampleRate : ℝ))
        / (2 * p.qFactor))
      hA (by linarith) (by linarith) hsq halpha
    nlinarith [hneg]

/-- C7: for every filter kind and every argument tuple, the factory create
returns empty exactly when sampleRate ≤ 0, cutoff ≤ 0, qFactor ≤ 0, or
cutoff > sampleRate/2; on arguments passing these checks the returned
wrapper always owns a core. -/
theorem c7_factory_validation (k : FilterKind) (cutoff : ℝ)
    (sampleRate : ℤ) (qFactor : ℝ) (gain : ℝ) (sk : Bool) :
    (k.create cutoff sampleRate qFactor gain sk = none ↔
      sampleRate ≤ 0 ∨ cutoff ≤ 0 ∨ qFactor ≤ 0 ∨
        (sampleRate : ℝ) / 2 < cutoff)
    ∧ Option.all (fun fo => fo.filter.isSome)
        (k.create cutoff sampleRate qFactor gain sk) = true := by
  by_cases hd : sampleRate ≤ 0 ∨ cutoff ≤ 0 ∨ qFactor ≤ 0 ∨
      (sampleRate : ℝ) / 2 < cutoff
  · have hv : verify_parameters cutoff sampleRate qFactor = false := by
      simp only [verify_parameters, if_pos hd]
    have hn : k.create cutoff sampleRate qFactor gain sk = none := by
      simp [FilterKind.create, hv]
    refine ⟨⟨fun _ => hd, fun _ => hn⟩, ?_⟩
    simp [hn, Option.all]
  · have hv : verify_parameters cutoff sampleRate qFactor = true := by
      simp only [verify_parameters, if_neg hd]
    push_neg at hd
    obtain ⟨h1, h2, h3, h4⟩ := hd
    have ha0 : (k.calculate_coefficients
        ⟨cutoff, sampleRate, qFactor, gain, sk⟩).a0 ≠ 0 :=
      ne_of_gt (calculate_coefficients_a0_pos k
        ⟨cutoff, sampleRate, qFactor, gain, sk⟩ h1 h2 h3 h4)
    constructor
    · constructor
      · intro hnone
        revert hnone
        simp [FilterKind.create, hv, DigitalBiquadFilter.create, ha0]
      · intro hD
        exact absurd hD (by push_neg; exact ⟨h1, h2, h3, h4⟩)
    · simp [FilterKind.create, hv, DigitalBiquadFilter.create, ha0,
        Option.all]

end Biquad
